import Mathlib

/-!
Verification of the RMSProp optimizer engine
(`tensorflow/python/keras/optimizer_v2/rmsprop.py`).

Tensors are embedded as lists of rationals; the external square-root
primitive and the dtype cast are passed as explicit function parameters,
so every definition stays computable.  The `training_ops` kernel ops and
the `optimizer_v2` slot/hyperparameter machinery are not part of the
source tree, so they are modelled from the spec (their doc comments say
so); the RMSProp class itself is translated line-by-line from the source.
-/

namespace RMSpropSpec

/-- A dense tensor: one rational per element. -/
abbrev Tensor := List ℚ

/-- Output of the uncentered RMSProp kernel: updated variable and slots. -/
structure RmsOut where
  v   : Tensor
  rms : Tensor
  mom : Tensor
  deriving DecidableEq, Repr

/-- Output of the centered RMSProp kernel. -/
structure CRmsOut where
  v   : Tensor
  mg  : Tensor
  rms : Tensor
  mom : Tensor
  deriving DecidableEq, Repr

/-- Modelled from the spec: the per-element uncentered RMSProp recurrence of
`training_ops.apply_rms_prop` (spec §4.3), whose C++ kernel is outside the
source tree.  `sqrt` is the external square-root primitive.
Elementwise over the four input tensors:
`rms' = rho*rms + (1-rho)*g^2`, `mom' = momentum*mom + lr*g/sqrt(rms'+eps)`,
`v' = v - mom'`.  Trailing elements of a shape-mismatched input are left
unchanged; the engine validates shapes before invoking the kernel. -/
def applyRmsPropList (sqrt : ℚ → ℚ) (lr rho momentum eps : ℚ) :
    Tensor → Tensor → Tensor → Tensor → RmsOut
  | v :: vs, r :: rs, m :: ms, g :: gs =>
      let rms' := rho * r + (1 - rho) * g ^ 2
      let mom' := momentum * m + lr * g / sqrt (rms' + eps)
      let rest := applyRmsPropList sqrt lr rho momentum eps vs rs ms gs
      ⟨(v - mom') :: rest.v, rms' :: rest.rms, mom' :: rest.mom⟩
  | vs, rs, ms, _ => ⟨vs, rs, ms⟩

/-- Modelled from the spec: the per-element centered RMSProp recurrence of
`training_ops.apply_centered_rms_prop` (spec §4.3), whose C++ kernel is
outside the source tree.  Additionally maintains the first-moment average:
`mg' = rho*mg + (1-rho)*g`, and the denominator uses `rms' - mg'^2 + eps`. -/
def applyCenteredRmsPropList (sqrt : ℚ → ℚ) (lr rho momentum eps : ℚ) :
    Tensor → Tensor → Tensor → Tensor → Tensor → CRmsOut
  | v :: vs, c :: cs, r :: rs, m :: ms, g :: gs =>
      let mg' := rho * c + (1 - rho) * g
      let rms' := rho * r + (1 - rho) * g ^ 2
      let mom' := momentum * m + lr * g / sqrt (rms' - mg' ^ 2 + eps)
      let rest := applyCenteredRmsPropList sqrt lr rho momentum eps vs cs rs ms gs
      ⟨(v - mom') :: rest.v, mg' :: rest.mg, rms' :: rest.rms, mom' :: rest.mom⟩
  | vs, cs, rs, ms, _ => ⟨vs, cs, rs, ms⟩

theorem applyRmsPropList_getElem (sqrt : ℚ → ℚ) (lr rho momentum eps : ℚ) :
    ∀ (j : ℕ) (vs rs ms gs : Tensor) (vj rj mj gj : ℚ),
      vs[j]? = some vj → rs[j]? = some rj → ms[j]? = some mj → gs[j]? = some gj →
      (applyRmsPropList sqrt lr rho momentum eps vs rs ms gs).rms[j]? =
          some (rho * rj + (1 - rho) * gj ^ 2) ∧
      (applyRmsPropList sqrt lr rho momentum eps vs rs ms gs).mom[j]? =
          some (momentum * mj + lr * gj / sqrt (rho * rj + (1 - rho) * gj ^ 2 + eps)) ∧
      (applyRmsPropList sqrt lr rho momentum eps vs rs ms gs).v[j]? =
          some (vj - (momentum * mj + lr * gj / sqrt (rho * rj + (1 - rho) * gj ^ 2 + eps))) := by
  intro j
  induction j with
  | zero =>
    intro vs rs ms gs vj rj mj gj hv hr hm hg
    match vs, rs, ms, gs with
    | [], _, _, _ => simp at hv
    | _ :: _, [], _, _ => simp at hr
    | _ :: _, _ :: _, [], _ => simp at hm
    | _ :: _, _ :: _, _ :: _, [] => simp at hg
    | v :: vs, r :: rs, m :: ms, g :: gs =>
      simp only [List.getElem?_cons_zero, Option.some.injEq] at hv hr hm hg
      subst hv; subst hr; subst hm; subst hg
      simp [applyRmsPropList]
  | succ j ih =>
    intro vs rs ms gs vj rj mj gj hv hr hm hg
    match vs, rs, ms, gs with
    | [], _, _, _ => simp at hv
    | _ :: _, [], _, _ => simp at hr
    | _ :: _, _ :: _, [], _ => simp at hm
    | _ :: _, _ :: _, _ :: _, [] => simp at hg
    | v :: vs, r :: rs, m :: ms, g :: gs =>
      simp only [List.getElem?_cons_succ] at hv hr hm hg
      simpa [applyRmsPropList] using ih vs rs ms gs vj rj mj gj hv hr hm hg

theorem applyCenteredRmsPropList_getElem (sqrt : ℚ → ℚ) (lr rho momentum eps : ℚ) :
    ∀ (j : ℕ) (vs cs rs ms gs : Tensor) (vj cj rj mj gj : ℚ),
      vs[j]? = some vj → cs[j]? = some cj → rs[j]? = some rj →
      ms[j]? = some mj → gs[j]? = some gj →
      (applyCenteredRmsPropList sqrt lr rho momentum eps vs cs rs ms gs).mg[j]? =
          some (rho * cj + (1 - rho) * gj) ∧
      (applyCenteredRmsPropList sqrt lr rho momentum eps vs cs rs ms gs).rms[j]? =
          some (rho * rj + (1 - rho) * gj ^ 2) ∧
      (applyCenteredRmsPropList sqrt lr rho momentum eps vs cs rs ms gs).mom[j]? =
          some (momentum * mj + lr * gj /
            sqrt (rho * rj + (1 - rho) * gj ^ 2 - (rho * cj + (1 - rho) * gj) ^ 2 + eps)) ∧
      (applyCenteredRmsPropList sqrt lr rho momentum eps vs cs rs ms gs).v[j]? =
          some (vj - (momentum * mj + lr * gj /
            sqrt (rho * rj + (1 - rho) * gj ^ 2 - (rho * cj + (1 - rho) * gj) ^ 2 + eps))) := by
  intro j
  induction j with
  | zero =>
    intro vs cs rs ms gs vj cj rj mj gj hv hc hr hm hg
    match vs, cs, rs, ms, gs with
    | [], _, _, _, _ => simp at hv
    | _ :: _, [], _, _, _ => simp at hc
    | _ :: _, _ :: _, [], _, _ => simp at hr
    | _ :: _, _ :: _, _ :: _, [], _ => simp at hm
    | _ :: _, _ :: _, _ :: _, _ :: _, [] => simp at hg
    | v :: vs, c :: cs, r :: rs, m :: ms, g :: gs =>
      simp only [List.getElem?_cons_zero, Option.some.injEq] at hv hc hr hm hg
      subst hv; subst hc; subst hr; subst hm; subst hg
      simp [applyCenteredRmsPropList]
  | succ j ih =>
    intro vs cs rs ms gs vj cj rj mj gj hv hc hr hm hg
    match vs, cs, rs, ms, gs with
    | [], _, _, _, _ => simp at hv
    | _ :: _, [], _, _, _ => simp at hc
    | _ :: _, _ :: _, [], _, _ => simp at hr
    | _ :: _, _ :: _, _ :: _, [], _ => simp at hm
    | _ :: _, _ :: _, _ :: _, _ :: _, [] => simp at hg
    | v :: vs, c :: cs, r :: rs, m :: ms, g :: gs =>
      simp only [List.getElem?_cons_succ] at hv hc hr hm hg
      simpa [applyCenteredRmsPropList] using ih vs cs rs ms gs vj cj rj mj gj hv hc hr hm hg

/-- Modelled from the spec: one step of the sparse uncentered kernel of
`training_ops.sparse_apply_rms_prop` (spec §4.4) — apply the per-row
recurrence to row `i` of the variable and both slots. -/
def sparseRmsStep (sqrt : ℚ → ℚ) (lr rho momentum eps : ℚ)
    (st : List Tensor × List Tensor × List Tensor) (gi : Tensor × ℕ) :
    List Tensor × List Tensor × List Tensor :=
  let out := applyRmsPropList sqrt lr rho momentum eps
    (st.1.getD gi.2 []) (st.2.1.getD gi.2 []) (st.2.2.getD gi.2 []) gi.1
  (st.1.set gi.2 out.v, st.2.1.set gi.2 out.rms, st.2.2.set gi.2 out.mom)

/-- Modelled from the spec: `training_ops.sparse_apply_rms_prop` (spec §4.4),
whose C++ kernel is outside the source tree.  The gradient is a list of rows
paired with row indices; occurrences are processed strictly in sequence
order (a left fold), each reading the state the previous one produced. -/
def sparse_apply_rms_prop (sqrt : ℚ → ℚ) (lr rho momentum eps : ℚ)
    (vs rs ms : List Tensor) (vals : List Tensor) (idx : List ℕ) :
    List Tensor × List Tensor × List Tensor :=
  (vals.zip idx).foldl (sparseRmsStep sqrt lr rho momentum eps) (vs, rs, ms)

/-- Modelled from the spec: one step of the sparse centered kernel
(spec §4.4), applying the centered per-row recurrence to row `i`.
State components are (variable, mg, rms, momentum) rows. -/
def sparseCenteredRmsStep (sqrt : ℚ → ℚ) (lr rho momentum eps : ℚ)
    (st : List Tensor × List Tensor × List Tensor × List Tensor) (gi : Tensor × ℕ) :
    List Tensor × List Tensor × List Tensor × List Tensor :=
  let out := applyCenteredRmsPropList sqrt lr rho momentum eps
    (st.1.getD gi.2 []) (st.2.1.getD gi.2 []) (st.2.2.1.getD gi.2 [])
    (st.2.2.2.getD gi.2 []) gi.1
  (st.1.set gi.2 out.v, st.2.1.set gi.2 out.mg,
   st.2.2.1.set gi.2 out.rms, st.2.2.2.set gi.2 out.mom)

/-- Modelled from the spec: `training_ops.sparse_apply_centered_rms_prop`
(spec §4.4), sequential left fold over the (row, index) pairs. -/
def sparse_apply_centered_rms_prop (sqrt : ℚ → ℚ) (lr rho momentum eps : ℚ)
    (vs cs rs ms : List Tensor) (vals : List Tensor) (idx : List ℕ) :
    List Tensor × List Tensor × List Tensor × List Tensor :=
  (vals.zip idx).foldl (sparseCenteredRmsStep sqrt lr rho momentum eps) (vs, cs, rs, ms)

/-! ## Hyperparameters, slots, and the engine (from the source) -/

/-- A hyperparameter as the source's `_set_hyper` accepts it: a numeric
constant, or a zero-argument callable evaluated when gradients are applied.
The callable is indexed by the update-call counter `t`, modelling external
state (e.g. a decayed learning rate) it may read. -/
inductive HyperValue where
  | const : ℚ → HyperValue
  | callable : (ℕ → ℚ) → HyperValue

/-- Modelled from the spec: `state.get_hyper(name, dtype)` of `optimizer_v2`
(spec §4.1), which is outside the source tree.  A constant is returned
directly; a callable is evaluated now, at the current call counter `t`,
with no caching.  `cast` is the conversion to the variable element type. -/
def getHyper (cast : ℚ → ℚ) (h : HyperValue) (t : ℕ) : ℚ :=
  match h with
  | .const c => cast c
  | .callable f => cast (f t)

/-- The RMSProp engine: four hyperparameters and the centered-mode flag,
mirroring the fields set by `RMSProp.__init__`. -/
structure RMSProp where
  learning_rate : HyperValue
  rho : HyperValue
  momentum : HyperValue
  epsilon : HyperValue
  centered : Bool

/-- `RMSProp.__init__`: a `momentum` of `None` is replaced by the constant
`0.0` before `_set_hyper("momentum", momentum)`; the other hyperparameters
are registered as given and `centered` is stored. -/
def RMSProp.init (learning_rate rho : HyperValue) (momentum : Option HyperValue)
    (epsilon : HyperValue) (centered : Bool) : RMSProp :=
  { learning_rate := learning_rate
    rho := rho
    momentum := momentum.getD (.const 0)
    epsilon := epsilon
    centered := centered }

/-- The slot kinds this optimizer uses. -/
inductive SlotKind where
  | rms | mg | momentum
  deriving DecidableEq, Repr

/-- Slot-store errors (spec §7). -/
inductive SlotError where
  | SlotNotFound
  deriving DecidableEq, Repr

/-- The per-variable state the engine mutates: the variable and its slots.
`α := ℚ` for the dense view (elements); `α := Tensor` for the sparse view
(rows).  `mg` is present only when the engine created it (centered mode). -/
structure VarState (α : Type) where
  v : List α
  rms : List α
  mom : List α
  mg : Option (List α)
  deriving DecidableEq, Repr

/-- Modelled from the spec: `state.get_slot(var, kind)` of `optimizer_v2`
(spec §4.2), outside the source tree: returns the existing slot, failing
with `SlotNotFound` when the slot was never created (e.g. `mg` on an
uncentered engine). -/
def getSlot {α : Type} (s : VarState α) (k : SlotKind) : Except SlotError (List α) :=
  match k with
  | .rms => .ok s.rms
  | .momentum => .ok s.mom
  | .mg =>
    match s.mg with
    | some t => .ok t
    | none => .error .SlotNotFound

/-- `RMSProp._create_vars`: `rms` is created with initializer
`epsilon * ones_like(v)` (epsilon resolved at the variable's dtype), `mg`
is zero-filled only in centered mode, and `momentum` is zero-filled. -/
def RMSProp.createVars (o : RMSProp) (cast : ℚ → ℚ) (t : ℕ) (v : Tensor) :
    VarState ℚ :=
  let init_rms := v.map (fun _ => getHyper cast o.epsilon t * 1)
  { v := v
    rms := init_rms
    mom := v.map (fun _ => 0)
    mg := if o.centered then some (v.map (fun _ => 0)) else none }

/-- `RMSProp._apply_dense`: looks up the slots, resolves `learning_rate`,
`rho` and `momentum` at the variable's dtype, and invokes the (centered or
uncentered) dense kernel with an epsilon argument of `0` — epsilon is the
rms initial value and is not added to the denominator. -/
def RMSProp.applyDense (o : RMSProp) (sqrt cast : ℚ → ℚ) (t : ℕ)
    (grad : Tensor) (s : VarState ℚ) : Except SlotError (VarState ℚ) :=
  let rms := s.rms
  let mom := s.mom
  if o.centered then
    match getSlot s .mg with
    | .error e => .error e
    | .ok mg =>
      let out := applyCenteredRmsPropList sqrt
        (getHyper cast o.learning_rate t) (getHyper cast o.rho t)
        (getHyper cast o.momentum t) 0 s.v mg rms mom grad
      .ok { v := out.v, rms := out.rms, mom := out.mom, mg := some out.mg }
  else
    let out := applyRmsPropList sqrt
      (getHyper cast o.learning_rate t) (getHyper cast o.rho t)
      (getHyper cast o.momentum t) 0 s.v rms mom grad
    .ok { v := out.v, rms := out.rms, mom := out.mom, mg := s.mg }

/-- `RMSProp._apply_sparse`: same hyperparameter resolution as the dense
path, invoking the sparse (centered or uncentered) kernel with epsilon `0`
on the gradient's `(values, indices)` pair. -/
def RMSProp.applySparse (o : RMSProp) (sqrt cast : ℚ → ℚ) (t : ℕ)
    (vals : List Tensor) (idx : List ℕ) (s : VarState Tensor) :
    Except SlotError (VarState Tensor) :=
  let rms := s.rms
  let mom := s.mom
  if o.centered then
    match getSlot s .mg with
    | .error e => .error e
    | .ok mg =>
      let out := sparse_apply_centered_rms_prop sqrt
        (getHyper cast o.learning_rate t) (getHyper cast o.rho t)
        (getHyper cast o.momentum t) 0 s.v mg rms mom vals idx
      .ok { v := out.1, rms := out.2.2.1, mom := out.2.2.2, mg := some out.2.1 }
  else
    let out := sparse_apply_rms_prop sqrt
      (getHyper cast o.learning_rate t) (getHyper cast o.rho t)
      (getHyper cast o.momentum t) 0 s.v rms mom vals idx
    .ok { v := out.1, rms := out.2.1, mom := out.2.2, mg := s.mg }

/-! ## Resource-backed variants: tensors addressed through handles -/

/-- A resource store: tensors addressed by stable integer handles.
`α := ℚ` for the dense view, `α := Tensor` for the sparse (row) view. -/
def Store (α : Type) := ℕ → List α

/-- Write the tensor at handle `h`. -/
def Store.update {α : Type} (σ : Store α) (h : ℕ) (x : List α) : Store α :=
  fun k => if k = h then x else σ k

/-- The handles of a resource variable and its slots, as the source reads
them (`var.handle`, `rms.handle`, `mom.handle`, `mg.handle`). -/
structure ResourceVar where
  v : ℕ
  rms : ℕ
  mom : ℕ
  mg : Option ℕ

/-- Modelled from the spec: `training_ops.resource_apply_rms_prop`
(spec §4.5) — the same computation as the dense uncentered kernel, with the
variable and slots read from and written back to the store through handles. -/
def resource_apply_rms_prop (sqrt : ℚ → ℚ) (lr rho momentum eps : ℚ)
    (σ : Store ℚ) (hv hr hm : ℕ) (g : Tensor) : Store ℚ :=
  let out := applyRmsPropList sqrt lr rho momentum eps (σ hv) (σ hr) (σ hm) g
  ((σ.update hv out.v).update hr out.rms).update hm out.mom

/-- Modelled from the spec: `training_ops.resource_apply_centered_rms_prop`
(spec §4.5), handle-addressed centered dense kernel. -/
def resource_apply_centered_rms_prop (sqrt : ℚ → ℚ) (lr rho momentum eps : ℚ)
    (σ : Store ℚ) (hv hc hr hm : ℕ) (g : Tensor) : Store ℚ :=
  let out := applyCenteredRmsPropList sqrt lr rho momentum eps
    (σ hv) (σ hc) (σ hr) (σ hm) g
  (((σ.update hv out.v).update hc out.mg).update hr out.rms).update hm out.mom

/-- Modelled from the spec: `training_ops.resource_sparse_apply_rms_prop`
(spec §4.5), handle-addressed sparse uncentered kernel. -/
def resource_sparse_apply_rms_prop (sqrt : ℚ → ℚ) (lr rho momentum eps : ℚ)
    (σ : Store Tensor) (hv hr hm : ℕ) (vals : List Tensor) (idx : List ℕ) :
    Store Tensor :=
  let out := sparse_apply_rms_prop sqrt lr rho momentum eps (σ hv) (σ hr) (σ hm) vals idx
  ((σ.update hv out.1).update hr out.2.1).update hm out.2.2

/-- Modelled from the spec:
`training_ops.resource_sparse_apply_centered_rms_prop` (spec §4.5),
handle-addressed sparse centered kernel. -/
def resource_sparse_apply_centered_rms_prop (sqrt : ℚ → ℚ)
    (lr rho momentum eps : ℚ) (σ : Store Tensor) (hv hc hr hm : ℕ)
    (vals : List Tensor) (idx : List ℕ) : Store Tensor :=
  let out := sparse_apply_centered_rms_prop sqrt lr rho momentum eps
    (σ hv) (σ hc) (σ hr) (σ hm) vals idx
  (((σ.update hv out.1).update hc out.2.1).update hr out.2.2.1).update hm out.2.2.2

/-- `RMSProp._resource_apply_dense`: identical hyperparameter resolution and
epsilon `0`, addressing the variable and slots through their handles. -/
def RMSProp.resourceApplyDense (o : RMSProp) (sqrt cast : ℚ → ℚ) (t : ℕ)
    (grad : Tensor) (rv : ResourceVar) (σ : Store ℚ) :
    Except SlotError (Store ℚ) :=
  if o.centered then
    match rv.mg with
    | none => .error .SlotNotFound
    | some hc =>
      .ok (resource_apply_centered_rms_prop sqrt
        (getHyper cast o.learning_rate t) (getHyper cast o.rho t)
        (getHyper cast o.momentum t) 0 σ rv.v hc rv.rms rv.mom grad)
  else
    .ok (resource_apply_rms_prop sqrt
      (getHyper cast o.learning_rate t) (getHyper cast o.rho t)
      (getHyper cast o.momentum t) 0 σ rv.v rv.rms rv.mom grad)

/-- `RMSProp._resource_apply_sparse`: identical hyperparameter resolution
and epsilon `0`, addressing row tensors through handles. -/
def RMSProp.resourceApplySparse (o : RMSProp) (sqrt cast : ℚ → ℚ) (t : ℕ)
    (vals : List Tensor) (idx : List ℕ) (rv : ResourceVar) (σ : Store Tensor) :
    Except SlotError (Store Tensor) :=
  if o.centered then
    match rv.mg with
    | none => .error .SlotNotFound
    | some hc =>
      .ok (resource_sparse_apply_centered_rms_prop sqrt
        (getHyper cast o.learning_rate t) (getHyper cast o.rho t)
        (getHyper cast o.momentum t) 0 σ rv.v hc rv.rms rv.mom vals idx)
  else
    .ok (resource_sparse_apply_rms_prop sqrt
      (getHyper cast o.learning_rate t) (getHyper cast o.rho t)
      (getHyper cast o.momentum t) 0 σ rv.v rv.rms rv.mom vals idx)

/-- A sample uncentered engine with constant hyperparameters, used to
instantiate universally quantified theorems on concrete inputs. -/
def egUncentered : RMSProp :=
  ⟨.const 2, .const (1/2), .const 3, .const 100, false⟩

/-- A sample centered engine with constant hyperparameters. -/
def egCentered : RMSProp :=
  ⟨.const 2, .const (1/2), .const 3, .const 100, true⟩

/-- A sample sparse (row-view) variable state with two rows. -/
def egSparseS : VarState Tensor := ⟨[[5], [9]], [[6], [9]], [[7], [9]], none⟩

/-- The state `egSparseS` after one uncentered sparse update of row 1 with
gradient row `[1]` under `egUncentered` (sqrt and cast both the identity). -/
def egSparseS' : VarState Tensor := ⟨[[5], [-92/5]], [[6], [5]], [[7], [137/5]], none⟩

/-- A sample dense resource store: handles 0, 1, 2 hold the variable, rms
and momentum tensors, handle 3 (and the rest) the mg tensor. -/
def egStoreD : Store ℚ :=
  fun k => if k = 0 then [5] else if k = 1 then [6] else if k = 2 then [7] else [1]

/-- A sample sparse (row-view) resource store, same handle layout. -/
def egStoreS : Store Tensor :=
  fun k => if k = 0 then [[5], [9]] else if k = 1 then [[6], [9]]
    else if k = 2 then [[7], [9]] else [[1], [1]]

/-! ## Claims -/

/-- C1: For every variable updated by the dense kernel with centered=false,
given gradient g and resolved scalars lr, rho, momentum, eps, the update
computes elementwise `rms' = rho*rms + (1-rho)*g^2`,
`mom' = momentum*mom + lr*g/sqrt(rms' + eps)`, and `v' = v - mom'`. -/
theorem C1_dense_uncentered_recurrence (sqrt : ℚ → ℚ) (lr rho momentum eps : ℚ)
    (vs rs ms gs : Tensor) (j : ℕ) (vj rj mj gj : ℚ)
    (hv : vs[j]? = some vj) (hr : rs[j]? = some rj)
    (hm : ms[j]? = some mj) (hg : gs[j]? = some gj) :
    (applyRmsPropList sqrt lr rho momentum eps vs rs ms gs).rms[j]? =
        some (rho * rj + (1 - rho) * gj ^ 2) ∧
    (applyRmsPropList sqrt lr rho momentum eps vs rs ms gs).mom[j]? =
        some (momentum * mj + lr * gj / sqrt (rho * rj + (1 - rho) * gj ^ 2 + eps)) ∧
    (applyRmsPropList sqrt lr rho momentum eps vs rs ms gs).v[j]? =
        some (vj - (momentum * mj + lr * gj / sqrt (rho * rj + (1 - rho) * gj ^ 2 + eps))) :=
  applyRmsPropList_getElem sqrt lr rho momentum eps j vs rs ms gs vj rj mj gj hv hr hm hg

theorem C1_dense_uncentered_recurrence_witness :
    (([5] : Tensor)[0]? = some (5 : ℚ)) ∧ (([6] : Tensor)[0]? = some (6 : ℚ)) ∧
    (([7] : Tensor)[0]? = some (7 : ℚ)) ∧ (([2] : Tensor)[0]? = some (2 : ℚ)) ∧
    ((applyRmsPropList id 2 (1/2) 3 4 [5] [6] [7] [2]).rms[0]? =
        some ((1:ℚ)/2 * 6 + (1 - 1/2) * 2 ^ 2) ∧
     (applyRmsPropList id 2 (1/2) 3 4 [5] [6] [7] [2]).mom[0]? =
        some (3 * 7 + 2 * 2 / id ((1:ℚ)/2 * 6 + (1 - 1/2) * 2 ^ 2 + 4)) ∧
     (applyRmsPropList id 2 (1/2) 3 4 [5] [6] [7] [2]).v[0]? =
        some (5 - (3 * 7 + 2 * 2 / id ((1:ℚ)/2 * 6 + (1 - 1/2) * 2 ^ 2 + 4)))) :=
  ⟨rfl, rfl, rfl, rfl,
   C1_dense_uncentered_recurrence id 2 (1/2) 3 4 [5] [6] [7] [2] 0 5 6 7 2 rfl rfl rfl rfl⟩

/-- C2: For every variable updated with centered=true, the dense kernel
additionally maintains `mg' = rho*mg + (1-rho)*g`, and the momentum update
denominator uses `rms' - mg'^2`, i.e.
`mom' = momentum*mom + lr*g/sqrt(rms' - mg'^2 + eps)`. -/
theorem C2_dense_centered_recurrence (sqrt : ℚ → ℚ) (lr rho momentum eps : ℚ)
    (vs cs rs ms gs : Tensor) (j : ℕ) (vj cj rj mj gj : ℚ)
    (hv : vs[j]? = some vj) (hc : cs[j]? = some cj) (hr : rs[j]? = some rj)
    (hm : ms[j]? = some mj) (hg : gs[j]? = some gj) :
    (applyCenteredRmsPropList sqrt lr rho momentum eps vs cs rs ms gs).mg[j]? =
        some (rho * cj + (1 - rho) * gj) ∧
    (applyCenteredRmsPropList sqrt lr rho momentum eps vs cs rs ms gs).rms[j]? =
        some (rho * rj + (1 - rho) * gj ^ 2) ∧
    (applyCenteredRmsPropList sqrt lr rho momentum eps vs cs rs ms gs).mom[j]? =
        some (momentum * mj + lr * gj /
          sqrt (rho * rj + (1 - rho) * gj ^ 2 - (rho * cj + (1 - rho) * gj) ^ 2 + eps)) ∧
    (applyCenteredRmsPropList sqrt lr rho momentum eps vs cs rs ms gs).v[j]? =
        some (vj - (momentum * mj + lr * gj /
          sqrt (rho * rj + (1 - rho) * gj ^ 2 - (rho * cj + (1 - rho) * gj) ^ 2 + eps))) :=
  applyCenteredRmsPropList_getElem sqrt lr rho momentum eps j vs cs rs ms gs
    vj cj rj mj gj hv hc hr hm hg

theorem C2_dense_centered_recurrence_witness :
    (([5] : Tensor)[0]? = some (5 : ℚ)) ∧ (([1] : Tensor)[0]? = some (1 : ℚ)) ∧
    (([6] : Tensor)[0]? = some (6 : ℚ)) ∧ (([7] : Tensor)[0]? = some (7 : ℚ)) ∧
    (([2] : Tensor)[0]? = some (2 : ℚ)) ∧
    ((applyCenteredRmsPropList id 2 (1/2) 3 4 [5] [1] [6] [7] [2]).mg[0]? =
        some ((1:ℚ)/2 * 1 + (1 - 1/2) * 2) ∧
     (applyCenteredRmsPropList id 2 (1/2) 3 4 [5] [1] [6] [7] [2]).rms[0]? =
        some ((1:ℚ)/2 * 6 + (1 - 1/2) * 2 ^ 2) ∧
     (applyCenteredRmsPropList id 2 (1/2) 3 4 [5] [1] [6] [7] [2]).mom[0]? =
        some (3 * 7 + 2 * 2 /
          id ((1:ℚ)/2 * 6 + (1 - 1/2) * 2 ^ 2 - ((1:ℚ)/2 * 1 + (1 - 1/2) * 2) ^ 2 + 4)) ∧
     (applyCenteredRmsPropList id 2 (1/2) 3 4 [5] [1] [6] [7] [2]).v[0]? =
        some (5 - (3 * 7 + 2 * 2 /
          id ((1:ℚ)/2 * 6 + (1 - 1/2) * 2 ^ 2 - ((1:ℚ)/2 * 1 + (1 - 1/2) * 2) ^ 2 + 4)))) :=
  ⟨rfl, rfl, rfl, rfl, rfl,
   C2_dense_centered_recurrence id 2 (1/2) 3 4 [5] [1] [6] [7] [2] 0 5 1 6 7 2
     rfl rfl rfl rfl rfl⟩

/-- C3: All four update entry points, in both centered and uncentered mode,
invoke the kernel op with an epsilon argument of exactly 0: the update result
is independent of the engine's epsilon hyperparameter (epsilon enters only
through the initial rms value set at slot creation), and the recurrence
denominator is `sqrt(rms')` (resp. `sqrt(rms' - mg'^2)`) directly, with no
per-step epsilon added. -/
theorem C3_epsilon_zero_convention :
    (∀ (o : RMSProp) (e₁ e₂ : HyperValue) (sqrt cast : ℚ → ℚ) (t : ℕ)
        (grad : Tensor) (s : VarState ℚ),
      RMSProp.applyDense { o with epsilon := e₁ } sqrt cast t grad s =
        RMSProp.applyDense { o with epsilon := e₂ } sqrt cast t grad s) ∧
    (∀ (o : RMSProp) (e₁ e₂ : HyperValue) (sqrt cast : ℚ → ℚ) (t : ℕ)
        (vals : List Tensor) (idx : List ℕ) (s : VarState Tensor),
      RMSProp.applySparse { o with epsilon := e₁ } sqrt cast t vals idx s =
        RMSProp.applySparse { o with epsilon := e₂ } sqrt cast t vals idx s) ∧
    (∀ (o : RMSProp) (e₁ e₂ : HyperValue) (sqrt cast : ℚ → ℚ) (t : ℕ)
        (grad : Tensor) (rv : ResourceVar) (σ : Store ℚ),
      RMSProp.resourceApplyDense { o with epsilon := e₁ } sqrt cast t grad rv σ =
        RMSProp.resourceApplyDense { o with epsilon := e₂ } sqrt cast t grad rv σ) ∧
    (∀ (o : RMSProp) (e₁ e₂ : HyperValue) (sqrt cast : ℚ → ℚ) (t : ℕ)
        (vals : List Tensor) (idx : List ℕ) (rv : ResourceVar) (σ : Store Tensor),
      RMSProp.resourceApplySparse { o with epsilon := e₁ } sqrt cast t vals idx rv σ =
        RMSProp.resourceApplySparse { o with epsilon := e₂ } sqrt cast t vals idx rv σ) ∧
    (∀ (o : RMSProp) (sqrt cast : ℚ → ℚ) (t : ℕ) (grad : Tensor) (s : VarState ℚ)
        (j : ℕ) (vj rj mj gj : ℚ),
      o.centered = false →
      s.v[j]? = some vj → s.rms[j]? = some rj → s.mom[j]? = some mj →
      grad[j]? = some gj →
      ∃ s', o.applyDense sqrt cast t grad s = .ok s' ∧
        s'.mom[j]? = some (getHyper cast o.momentum t * mj +
          getHyper cast o.learning_rate t * gj /
            sqrt (getHyper cast o.rho t * rj + (1 - getHyper cast o.rho t) * gj ^ 2))) ∧
    (∀ (o : RMSProp) (sqrt cast : ℚ → ℚ) (t : ℕ) (grad : Tensor) (s : VarState ℚ)
        (cs : Tensor) (j : ℕ) (vj cj rj mj gj : ℚ),
      o.centered = true → s.mg = some cs →
      s.v[j]? = some vj → cs[j]? = some cj → s.rms[j]? = some rj →
      s.mom[j]? = some mj → grad[j]? = some gj →
      ∃ s', o.applyDense sqrt cast t grad s = .ok s' ∧
        s'.mom[j]? = some (getHyper cast o.momentum t * mj +
          getHyper cast o.learning_rate t * gj /
            sqrt (getHyper cast o.rho t * rj + (1 - getHyper cast o.rho t) * gj ^ 2 -
              (getHyper cast o.rho t * cj + (1 - getHyper cast o.rho t) * gj) ^ 2))) := by
  refine ⟨fun _ _ _ _ _ _ _ _ => rfl, fun _ _ _ _ _ _ _ _ _ => rfl,
    fun _ _ _ _ _ _ _ _ _ => rfl, fun _ _ _ _ _ _ _ _ _ _ => rfl, ?_, ?_⟩
  · intro o sqrt cast t grad s j vj rj mj gj hcent hv hr hm hg
    set out := applyRmsPropList sqrt (getHyper cast o.learning_rate t)
      (getHyper cast o.rho t) (getHyper cast o.momentum t) 0 s.v s.rms s.mom grad with hout
    refine ⟨⟨out.v, out.rms, out.mom, s.mg⟩, ?_, ?_⟩
    · rw [RMSProp.applyDense, hcent]
      rfl
    have := (applyRmsPropList_getElem sqrt (getHyper cast o.learning_rate t)
      (getHyper cast o.rho t) (getHyper cast o.momentum t) 0
      j s.v s.rms s.mom grad vj rj mj gj hv hr hm hg).2.1
    rw [← hout] at this
    simpa using this
  · intro o sqrt cast t grad s cs j vj cj rj mj gj hcent hmg hv hc hr hm hg
    set out := applyCenteredRmsPropList sqrt (getHyper cast o.learning_rate t)
      (getHyper cast o.rho t) (getHyper cast o.momentum t) 0 s.v cs s.rms s.mom grad with hout
    refine ⟨⟨out.v, out.rms, out.mom, some out.mg⟩, ?_, ?_⟩
    · rw [RMSProp.applyDense, hcent]
      simp only [getSlot, hmg]
      rfl
    have := (applyCenteredRmsPropList_getElem sqrt (getHyper cast o.learning_rate t)
      (getHyper cast o.rho t) (getHyper cast o.momentum t) 0
      j s.v cs s.rms s.mom grad vj cj rj mj gj hv hc hr hm hg).2.2.1
    rw [← hout] at this
    simpa using this

theorem C3_epsilon_zero_convention_witness :
    egUncentered.centered = false ∧
    (([5] : Tensor)[0]? = some (5 : ℚ)) ∧ (([6] : Tensor)[0]? = some (6 : ℚ)) ∧
    (([7] : Tensor)[0]? = some (7 : ℚ)) ∧ (([2] : Tensor)[0]? = some (2 : ℚ)) ∧
    (∃ s', RMSProp.applyDense egUncentered id id 0 [2] ⟨[5], [6], [7], none⟩ = .ok s' ∧
      s'.mom[0]? = some (getHyper id egUncentered.momentum 0 * 7 +
        getHyper id egUncentered.learning_rate 0 * 2 /
          id (getHyper id egUncentered.rho 0 * 6 +
            (1 - getHyper id egUncentered.rho 0) * 2 ^ 2))) ∧
    egCentered.centered = true ∧
    ((⟨[5], [6], [7], some [1]⟩ : VarState ℚ).mg = some [1]) ∧
    (([1] : Tensor)[0]? = some (1 : ℚ)) ∧
    (∃ s', RMSProp.applyDense egCentered id id 0 [2] ⟨[5], [6], [7], some [1]⟩ = .ok s' ∧
      s'.mom[0]? = some (getHyper id egCentered.momentum 0 * 7 +
        getHyper id egCentered.learning_rate 0 * 2 /
          id (getHyper id egCentered.rho 0 * 6 +
            (1 - getHyper id egCentered.rho 0) * 2 ^ 2 -
            (getHyper id egCentered.rho 0 * 1 +
              (1 - getHyper id egCentered.rho 0) * 2) ^ 2))) :=
  ⟨rfl, rfl, rfl, rfl, rfl,
   C3_epsilon_zero_convention.2.2.2.2.1 egUncentered id id 0 [2] ⟨[5], [6], [7], none⟩
     0 5 6 7 2 rfl rfl rfl rfl rfl,
   rfl, rfl, rfl,
   C3_epsilon_zero_convention.2.2.2.2.2 egCentered id id 0 [2] ⟨[5], [6], [7], some [1]⟩
     [1] 0 5 1 6 7 2 rfl rfl rfl rfl rfl rfl rfl⟩

theorem sparseRmsStep_frame (sqrt : ℚ → ℚ) (lr rho momentum eps : ℚ)
    (st : List Tensor × List Tensor × List Tensor) (p : Tensor × ℕ) (j : ℕ)
    (h : p.2 ≠ j) :
    (sparseRmsStep sqrt lr rho momentum eps st p).1[j]? = st.1[j]? ∧
    (sparseRmsStep sqrt lr rho momentum eps st p).2.1[j]? = st.2.1[j]? ∧
    (sparseRmsStep sqrt lr rho momentum eps st p).2.2[j]? = st.2.2[j]? :=
  ⟨List.getElem?_set_ne h, List.getElem?_set_ne h, List.getElem?_set_ne h⟩

theorem sparse_foldl_frame (sqrt : ℚ → ℚ) (lr rho momentum eps : ℚ) :
    ∀ (ps : List (Tensor × ℕ)) (st : List Tensor × List Tensor × List Tensor) (j : ℕ),
      (∀ p ∈ ps, p.2 ≠ j) →
      (ps.foldl (sparseRmsStep sqrt lr rho momentum eps) st).1[j]? = st.1[j]? ∧
      (ps.foldl (sparseRmsStep sqrt lr rho momentum eps) st).2.1[j]? = st.2.1[j]? ∧
      (ps.foldl (sparseRmsStep sqrt lr rho momentum eps) st).2.2[j]? = st.2.2[j]? := by
  intro ps
  induction ps with
  | nil => exact fun st j _ => ⟨rfl, rfl, rfl⟩
  | cons p ps ih =>
    intro st j h
    have hp : p.2 ≠ j := h p (List.mem_cons_self p ps)
    have hrest := ih (sparseRmsStep sqrt lr rho momentum eps st p) j
      (fun q hq => h q (List.mem_cons_of_mem p hq))
    have hstep := sparseRmsStep_frame sqrt lr rho momentum eps st p j hp
    simp only [List.foldl_cons]
    exact ⟨hrest.1.trans hstep.1, hrest.2.1.trans hstep.2.1, hrest.2.2.trans hstep.2.2⟩

theorem sparseCenteredRmsStep_frame (sqrt : ℚ → ℚ) (lr rho momentum eps : ℚ)
    (st : List Tensor × List Tensor × List Tensor × List Tensor) (p : Tensor × ℕ)
    (j : ℕ) (h : p.2 ≠ j) :
    (sparseCenteredRmsStep sqrt lr rho momentum eps st p).1[j]? = st.1[j]? ∧
    (sparseCenteredRmsStep sqrt lr rho momentum eps st p).2.1[j]? = st.2.1[j]? ∧
    (sparseCenteredRmsStep sqrt lr rho momentum eps st p).2.2.1[j]? = st.2.2.1[j]? ∧
    (sparseCenteredRmsStep sqrt lr rho momentum eps st p).2.2.2[j]? = st.2.2.2[j]? :=
  ⟨List.getElem?_set_ne h, List.getElem?_set_ne h,
   List.getElem?_set_ne h, List.getElem?_set_ne h⟩

theorem sparse_centered_foldl_frame (sqrt : ℚ → ℚ) (lr rho momentum eps : ℚ) :
    ∀ (ps : List (Tensor × ℕ)) (st : List Tensor × List Tensor × List Tensor × List Tensor)
      (j : ℕ), (∀ p ∈ ps, p.2 ≠ j) →
      (ps.foldl (sparseCenteredRmsStep sqrt lr rho momentum eps) st).1[j]? = st.1[j]? ∧
      (ps.foldl (sparseCenteredRmsStep sqrt lr rho momentum eps) st).2.1[j]? = st.2.1[j]? ∧
      (ps.foldl (sparseCenteredRmsStep sqrt lr rho momentum eps) st).2.2.1[j]? = st.2.2.1[j]? ∧
      (ps.foldl (sparseCenteredRmsStep sqrt lr rho momentum eps) st).2.2.2[j]? = st.2.2.2[j]? := by
  intro ps
  induction ps with
  | nil => exact fun st j _ => ⟨rfl, rfl, rfl, rfl⟩
  | cons p ps ih =>
    intro st j h
    have hp : p.2 ≠ j := h p (List.mem_cons_self p ps)
    have hrest := ih (sparseCenteredRmsStep sqrt lr rho momentum eps st p) j
      (fun q hq => h q (List.mem_cons_of_mem p hq))
    have hstep := sparseCenteredRmsStep_frame sqrt lr rho momentum eps st p j hp
    simp only [List.foldl_cons]
    exact ⟨hrest.1.trans hstep.1, hrest.2.1.trans hstep.2.1,
      hrest.2.2.1.trans hstep.2.2.1, hrest.2.2.2.trans hstep.2.2.2⟩

/-- C4: For every sparse update with index sequence `idx`, every row of the
variable whose index is not in `idx`, and the corresponding rows of all of
its slots (rms, momentum, and mg when centered), are left exactly unchanged:
no decay is applied to them and, the statement holding after the entire
sequential fold, no later occurrence retroactively corrects the skipped
decay. -/
theorem C4_sparse_untouched_rows (o : RMSProp) (sqrt cast : ℚ → ℚ) (t : ℕ)
    (vals : List Tensor) (idx : List ℕ) (s s' : VarState Tensor) (j : ℕ)
    (hj : j ∉ idx) (h : o.applySparse sqrt cast t vals idx s = .ok s') :
    s'.v[j]? = s.v[j]? ∧ s'.rms[j]? = s.rms[j]? ∧ s'.mom[j]? = s.mom[j]? ∧
    (∀ cs cs', s.mg = some cs → s'.mg = some cs' → cs'[j]? = cs[j]?) := by
  have hidx : ∀ p ∈ vals.zip idx, p.2 ≠ j := by
    intro p hp hpj
    exact hj (hpj ▸ (List.of_mem_zip hp).2)
  rw [RMSProp.applySparse] at h
  cases hc : o.centered with
  | false =>
    rw [hc] at h
    simp only [Bool.false_eq_true, if_false, Except.ok.injEq] at h
    subst h
    have hf := sparse_foldl_frame sqrt (getHyper cast o.learning_rate t)
      (getHyper cast o.rho t) (getHyper cast o.momentum t) 0
      (vals.zip idx) (s.v, s.rms, s.mom) j hidx
    refine ⟨hf.1, hf.2.1, hf.2.2, ?_⟩
    intro cs cs' h₁ h₂
    have hcc : cs = cs' := Option.some.inj (h₁.symm.trans h₂)
    rw [hcc]
  | true =>
    rw [hc] at h
    simp only [if_true] at h
    cases hmg : s.mg with
    | none =>
      simp only [getSlot, hmg] at h
      exact Except.noConfusion h
    | some cs₀ =>
      simp only [getSlot, hmg, Except.ok.injEq] at h
      subst h
      have hf := sparse_centered_foldl_frame sqrt (getHyper cast o.learning_rate t)
        (getHyper cast o.rho t) (getHyper cast o.momentum t) 0
        (vals.zip idx) (s.v, cs₀, s.rms, s.mom) j hidx
      refine ⟨hf.1, hf.2.2.1, hf.2.2.2, ?_⟩
      intro cs cs' h₁ h₂
      have hc₀ : cs₀ = cs := Option.some.inj h₁
      have hcc : (sparse_apply_centered_rms_prop sqrt (getHyper cast o.learning_rate t)
          (getHyper cast o.rho t) (getHyper cast o.momentum t) 0
          s.v cs₀ s.rms s.mom vals idx).2.1 = cs' := Option.some.inj h₂
      rw [← hcc, ← hc₀]
      exact hf.2.1

theorem C4_sparse_untouched_rows_witness :
    ((0 : ℕ) ∉ [1]) ∧
    RMSProp.applySparse egUncentered id id 0 [[1]] [1] egSparseS = .ok egSparseS' ∧
    (egSparseS'.v[0]? = egSparseS.v[0]? ∧
     egSparseS'.rms[0]? = egSparseS.rms[0]? ∧
     egSparseS'.mom[0]? = egSparseS.mom[0]? ∧
     (∀ cs cs', egSparseS.mg = some cs → egSparseS'.mg = some cs' →
        cs'[0]? = cs[0]?)) :=
  have h : RMSProp.applySparse egUncentered id id 0 [[1]] [1] egSparseS = .ok egSparseS' := by
    norm_num [RMSProp.applySparse, sparse_apply_rms_prop, sparseRmsStep,
      applyRmsPropList, getHyper, egUncentered, egSparseS, egSparseS']
  ⟨by decide, h,
   C4_sparse_untouched_rows egUncentered id id 0 [[1]] [1] egSparseS egSparseS' 0
     (by decide) h⟩

/-- C5: For every gradient, variable, and engine state, the resource-backed
update entry points compute exactly the same next variable and slot values
as the corresponding value-captured entry points — `_resource_apply_dense`
matches `_apply_dense` and `_resource_apply_sparse` matches `_apply_sparse`
in both modes — the only difference being that the variable and slots are
addressed through (distinct) handles into the store, all other store
entries being left unchanged. -/
theorem C5_resource_matches_value :
    (∀ (o : RMSProp) (sqrt cast : ℚ → ℚ) (t : ℕ) (grad : Tensor) (σ : Store ℚ)
        (kv kr km : ℕ) (omg : Option ℕ) (s : VarState ℚ),
      o.centered = false →
      σ kv = s.v → σ kr = s.rms → σ km = s.mom →
      kv ≠ kr → kv ≠ km → kr ≠ km →
      ∃ σ' s₁, o.resourceApplyDense sqrt cast t grad ⟨kv, kr, km, omg⟩ σ = .ok σ' ∧
        o.applyDense sqrt cast t grad s = .ok s₁ ∧
        σ' kv = s₁.v ∧ σ' kr = s₁.rms ∧ σ' km = s₁.mom ∧
        (∀ k, k ≠ kv → k ≠ kr → k ≠ km → σ' k = σ k)) ∧
    (∀ (o : RMSProp) (sqrt cast : ℚ → ℚ) (t : ℕ) (grad : Tensor) (σ : Store ℚ)
        (kv kc kr km : ℕ) (s : VarState ℚ) (cs : Tensor),
      o.centered = true → s.mg = some cs →
      σ kv = s.v → σ kc = cs → σ kr = s.rms → σ km = s.mom →
      kv ≠ kc → kv ≠ kr → kv ≠ km → kc ≠ kr → kc ≠ km → kr ≠ km →
      ∃ σ' s₁, o.resourceApplyDense sqrt cast t grad ⟨kv, kr, km, some kc⟩ σ = .ok σ' ∧
        o.applyDense sqrt cast t grad s = .ok s₁ ∧
        σ' kv = s₁.v ∧ σ' kr = s₁.rms ∧ σ' km = s₁.mom ∧ s₁.mg = some (σ' kc) ∧
        (∀ k, k ≠ kv → k ≠ kc → k ≠ kr → k ≠ km → σ' k = σ k)) ∧
    (∀ (o : RMSProp) (sqrt cast : ℚ → ℚ) (t : ℕ) (vals : List Tensor) (idx : List ℕ)
        (σ : Store Tensor) (kv kr km : ℕ) (omg : Option ℕ) (s : VarState Tensor),
      o.centered = false →
      σ kv = s.v → σ kr = s.rms → σ km = s.mom →
      kv ≠ kr → kv ≠ km → kr ≠ km →
      ∃ σ' s₁, o.resourceApplySparse sqrt cast t vals idx ⟨kv, kr, km, omg⟩ σ = .ok σ' ∧
        o.applySparse sqrt cast t vals idx s = .ok s₁ ∧
        σ' kv = s₁.v ∧ σ' kr = s₁.rms ∧ σ' km = s₁.mom ∧
        (∀ k, k ≠ kv → k ≠ kr → k ≠ km → σ' k = σ k)) ∧
    (∀ (o : RMSProp) (sqrt cast : ℚ → ℚ) (t : ℕ) (vals : List Tensor) (idx : List ℕ)
        (σ : Store Tensor) (kv kc kr km : ℕ) (s : VarState Tensor) (cs : List Tensor),
      o.centered = true → s.mg = some cs →
      σ kv = s.v → σ kc = cs → σ kr = s.rms → σ km = s.mom →
      kv ≠ kc → kv ≠ kr → kv ≠ km → kc ≠ kr → kc ≠ km → kr ≠ km →
      ∃ σ' s₁, o.resourceApplySparse sqrt cast t vals idx ⟨kv, kr, km, some kc⟩ σ = .ok σ' ∧
        o.applySparse sqrt cast t vals idx s = .ok s₁ ∧
        σ' kv = s₁.v ∧ σ' kr = s₁.rms ∧ σ' km = s₁.mom ∧ s₁.mg = some (σ' kc) ∧
        (∀ k, k ≠ kv → k ≠ kc → k ≠ kr → k ≠ km → σ' k = σ k)) := by
  refine ⟨?_, ?_, ?_, ?_⟩
  · intro o sqrt cast t grad σ kv kr km omg s hcent e1 e2 e3 n1 n2 n3
    obtain ⟨sv, srms, smom, smg⟩ := s
    simp only at e1 e2 e3
    subst e1; subst e2; subst e3
    refine ⟨resource_apply_rms_prop sqrt (getHyper cast o.learning_rate t)
        (getHyper cast o.rho t) (getHyper cast o.momentum t) 0 σ kv kr km grad,
      ⟨(applyRmsPropList sqrt (getHyper cast o.learning_rate t) (getHyper cast o.rho t)
          (getHyper cast o.momentum t) 0 (σ kv) (σ kr) (σ km) grad).v,
       (applyRmsPropList sqrt (getHyper cast o.learning_rate t) (getHyper cast o.rho t)
          (getHyper cast o.momentum t) 0 (σ kv) (σ kr) (σ km) grad).rms,
       (applyRmsPropList sqrt (getHyper cast o.learning_rate t) (getHyper cast o.rho t)
          (getHyper cast o.momentum t) 0 (σ kv) (σ kr) (σ km) grad).mom, smg⟩,
      ?_, ?_, ?_, ?_, ?_, ?_⟩
    · rw [RMSProp.resourceApplyDense, hcent]
      rfl
    · rw [RMSProp.applyDense, hcent]
      rfl
    · simp [resource_apply_rms_prop, Store.update, n1, n2]
    · simp [resource_apply_rms_prop, Store.update, n3]
    · simp [resource_apply_rms_prop, Store.update]
    · intro k k1 k2 k3
      simp [resource_apply_rms_prop, Store.update, k1, k2, k3]
  · intro o sqrt cast t grad σ kv kc kr km s cs hcent hmg e1 e2 e3 e4
    intro n1 n2 n3 n4 n5 n6
    obtain ⟨sv, srms, smom, smg⟩ := s
    simp only at e1 e3 e4 hmg
    subst hmg; subst e1; subst e2; subst e3; subst e4
    refine ⟨resource_apply_centered_rms_prop sqrt (getHyper cast o.learning_rate t)
        (getHyper cast o.rho t) (getHyper cast o.momentum t) 0 σ kv kc kr km grad,
      ⟨(applyCenteredRmsPropList sqrt (getHyper cast o.learning_rate t)
          (getHyper cast o.rho t) (getHyper cast o.momentum t) 0
          (σ kv) (σ kc) (σ kr) (σ km) grad).v,
       (applyCenteredRmsPropList sqrt (getHyper cast o.learning_rate t)
          (getHyper cast o.rho t) (getHyper cast o.momentum t) 0
          (σ kv) (σ kc) (σ kr) (σ km) grad).rms,
       (applyCenteredRmsPropList sqrt (getHyper cast o.learning_rate t)
          (getHyper cast o.rho t) (getHyper cast o.momentum t) 0
          (σ kv) (σ kc) (σ kr) (σ km) grad).mom,
       some (applyCenteredRmsPropList sqrt (getHyper cast o.learning_rate t)
          (getHyper cast o.rho t) (getHyper cast o.momentum t) 0
          (σ kv) (σ kc) (σ kr) (σ km) grad).mg⟩,
      ?_, ?_, ?_, ?_, ?_, ?_, ?_⟩
    · rw [RMSProp.resourceApplyDense, hcent]
      rfl
    · rw [RMSProp.applyDense, hcent]
      simp only [getSlot]
      rfl
    · simp [resource_apply_centered_rms_prop, Store.update, n1, n2, n3]
    · simp [resource_apply_centered_rms_prop, Store.update, n6]
    · simp [resource_apply_centered_rms_prop, Store.update]
    · simp [resource_apply_centered_rms_prop, Store.update, n4, n5]
    · intro k k1 k2 k3 k4
      simp [resource_apply_centered_rms_prop, Store.update, k1, k2, k3, k4]
  · intro o sqrt cast t vals idx σ kv kr km omg s hcent e1 e2 e3 n1 n2 n3
    obtain ⟨sv, srms, smom, smg⟩ := s
    simp only at e1 e2 e3
    subst e1; subst e2; subst e3
    refine ⟨resource_sparse_apply_rms_prop sqrt (getHyper cast o.learning_rate t)
        (getHyper cast o.rho t) (getHyper cast o.momentum t) 0 σ kv kr km vals idx,
      ⟨(sparse_apply_rms_prop sqrt (getHyper cast o.learning_rate t)
          (getHyper cast o.rho t) (getHyper cast o.momentum t) 0
          (σ kv) (σ kr) (σ km) vals idx).1,
       (sparse_apply_rms_prop sqrt (getHyper cast o.learning_rate t)
          (getHyper cast o.rho t) (getHyper cast o.momentum t) 0
          (σ kv) (σ kr) (σ km) vals idx).2.1,
       (sparse_apply_rms_prop sqrt (getHyper cast o.learning_rate t)
          (getHyper cast o.rho t) (getHyper cast o.momentum t) 0
          (σ kv) (σ kr) (σ km) vals idx).2.2, smg⟩,
      ?_, ?_, ?_, ?_, ?_, ?_⟩
    · rw [RMSProp.resourceApplySparse, hcent]
      rfl
    · rw [RMSProp.applySparse, hcent]
      rfl
    · simp [resource_sparse_apply_rms_prop, Store.update, n1, n2]
    · simp [resource_sparse_apply_rms_prop, Store.update, n3]
    · simp [resource_sparse_apply_rms_prop, Store.update]
    · intro k k1 k2 k3
      simp [resource_sparse_apply_rms_prop, Store.update, k1, k2, k3]
  · intro o sqrt cast t vals idx σ kv kc kr km s cs hcent hmg e1 e2 e3 e4
    intro n1 n2 n3 n4 n5 n6
    obtain ⟨sv, srms, smom, smg⟩ := s
    simp only at e1 e3 e4 hmg
    subst hmg; subst e1; subst e2; subst e3; subst e4
    refine ⟨resource_sparse_apply_centered_rms_prop sqrt (getHyper cast o.learning_rate t)
        (getHyper cast o.rho t) (getHyper cast o.momentum t) 0 σ kv kc kr km vals idx,
      ⟨(sparse_apply_centered_rms_prop sqrt (getHyper cast o.learning_rate t)
          (getHyper cast o.rho t) (getHyper cast o.momentum t) 0
          (σ kv) (σ kc) (σ kr) (σ km) vals idx).1,
       (sparse_apply_centered_rms_prop sqrt (getHyper cast o.learning_rate t)
          (getHyper cast o.rho t) (getHyper cast o.momentum t) 0
          (σ kv) (σ kc) (σ kr) (σ km) vals idx).2.2.1,
       (sparse_apply_centered_rms_prop sqrt (getHyper cast o.learning_rate t)
          (getHyper cast o.rho t) (getHyper cast o.momentum t) 0
          (σ kv) (σ kc) (σ kr) (σ km) vals idx).2.2.2,
       some (sparse_apply_centered_rms_prop sqrt (getHyper cast o.learning_rate t)
          (getHyper cast o.rho t) (getHyper cast o.momentum t) 0
          (σ kv) (σ kc) (σ kr) (σ km) vals idx).2.1⟩,
      ?_, ?_, ?_, ?_, ?_, ?_, ?_⟩
    · rw [RMSProp.resourceApplySparse, hcent]
      rfl
    · rw [RMSProp.applySparse, hcent]
      simp only [getSlot]
      rfl
    · simp [resource_sparse_apply_centered_rms_prop, Store.update, n1, n2, n3]
    · simp [resource_sparse_apply_centered_rms_prop, Store.update, n6]
    · simp [resource_sparse_apply_centered_rms_prop, Store.update]
    · simp [resource_sparse_apply_centered_rms_prop, Store.update, n4, n5]
    · intro k k1 k2 k3 k4
      simp [resource_sparse_apply_centered_rms_prop, Store.update, k1, k2, k3, k4]

theorem C5_resource_matches_value_witness :
    (egUncentered.centered = false ∧ egStoreD 0 = [5] ∧ egStoreD 1 = [6] ∧
     egStoreD 2 = [7] ∧ (0 : ℕ) ≠ 1 ∧ (0 : ℕ) ≠ 2 ∧ (1 : ℕ) ≠ 2 ∧
     ∃ σ' s₁,
       RMSProp.resourceApplyDense egUncentered id id 0 [1] ⟨0, 1, 2, none⟩ egStoreD =
         .ok σ' ∧
       RMSProp.applyDense egUncentered id id 0 [1] ⟨[5], [6], [7], none⟩ = .ok s₁ ∧
       σ' 0 = s₁.v ∧ σ' 1 = s₁.rms ∧ σ' 2 = s₁.mom ∧
       (∀ k, k ≠ 0 → k ≠ 1 → k ≠ 2 → σ' k = egStoreD k)) ∧
    (egCentered.centered = true ∧
     (⟨[5], [6], [7], some [1]⟩ : VarState ℚ).mg = some [1] ∧
     egStoreD 0 = [5] ∧ egStoreD 3 = [1] ∧ egStoreD 1 = [6] ∧ egStoreD 2 = [7] ∧
     ∃ σ' s₁,
       RMSProp.resourceApplyDense egCentered id id 0 [1] ⟨0, 1, 2, some 3⟩ egStoreD =
         .ok σ' ∧
       RMSProp.applyDense egCentered id id 0 [1] ⟨[5], [6], [7], some [1]⟩ = .ok s₁ ∧
       σ' 0 = s₁.v ∧ σ' 1 = s₁.rms ∧ σ' 2 = s₁.mom ∧ s₁.mg = some (σ' 3) ∧
       (∀ k, k ≠ 0 → k ≠ 3 → k ≠ 1 → k ≠ 2 → σ' k = egStoreD k)) ∧
    (∃ σ' s₁,
       RMSProp.resourceApplySparse egUncentered id id 0 [[1]] [1] ⟨0, 1, 2, none⟩
           egStoreS = .ok σ' ∧
       RMSProp.applySparse egUncentered id id 0 [[1]] [1] egSparseS = .ok s₁ ∧
       σ' 0 = s₁.v ∧ σ' 1 = s₁.rms ∧ σ' 2 = s₁.mom ∧
       (∀ k, k ≠ 0 → k ≠ 1 → k ≠ 2 → σ' k = egStoreS k)) ∧
    (∃ σ' s₁,
       RMSProp.resourceApplySparse egCentered id id 0 [[1]] [1] ⟨0, 1, 2, some 3⟩
           egStoreS = .ok σ' ∧
       RMSProp.applySparse egCentered id id 0 [[1]] [1]
           ⟨[[5], [9]], [[6], [9]], [[7], [9]], some [[1], [1]]⟩ = .ok s₁ ∧
       σ' 0 = s₁.v ∧ σ' 1 = s₁.rms ∧ σ' 2 = s₁.mom ∧ s₁.mg = some (σ' 3) ∧
       (∀ k, k ≠ 0 → k ≠ 3 → k ≠ 1 → k ≠ 2 → σ' k = egStoreS k)) := by
  refine ⟨⟨rfl, rfl, rfl, rfl, by decide, by decide, by decide, ?_⟩,
    ⟨rfl, rfl, rfl, rfl, rfl, rfl, ?_⟩, ?_, ?_⟩
  · exact C5_resource_matches_value.1 egUncentered id id 0 [1] egStoreD 0 1 2 none
      ⟨[5], [6], [7], none⟩ rfl rfl rfl rfl (by decide) (by decide) (by decide)
  · exact C5_resource_matches_value.2.1 egCentered id id 0 [1] egStoreD 0 3 1 2
      ⟨[5], [6], [7], some [1]⟩ [1] rfl rfl rfl rfl rfl rfl
      (by decide) (by decide) (by decide) (by decide) (by decide) (by decide)
  · exact C5_resource_matches_value.2.2.1 egUncentered id id 0 [[1]] [1] egStoreS
      0 1 2 none egSparseS rfl rfl rfl rfl (by decide) (by decide) (by decide)
  · exact C5_resource_matches_value.2.2.2 egCentered id id 0 [[1]] [1] egStoreS
      0 3 1 2 ⟨[[5], [9]], [[6], [9]], [[7], [9]], some [[1], [1]]⟩ [[1], [1]]
      rfl rfl rfl rfl rfl rfl
      (by decide) (by decide) (by decide) (by decide) (by decide) (by decide)

/-- C6: When slots are created for a variable, the rms slot is initialized
to the resolved epsilon value broadcast over the variable's shape, the
momentum slot is zero-filled, and the mg slot is created (zero-filled) if
and only if the engine was constructed with centered=true; every slot has
the same shape (here: length, with elements of the same type) as its
owning variable. -/
theorem C6_slot_creation (o : RMSProp) (cast : ℚ → ℚ) (t : ℕ) (v : Tensor) :
    (o.createVars cast t v).rms = List.replicate v.length (getHyper cast o.epsilon t) ∧
    (o.createVars cast t v).mom = List.replicate v.length 0 ∧
    (o.createVars cast t v).mg =
      (if o.centered then some (List.replicate v.length 0) else none) ∧
    (o.createVars cast t v).v = v ∧
    (o.createVars cast t v).rms.length = v.length ∧
    (o.createVars cast t v).mom.length = v.length ∧
    (o.createVars cast t v).mg.isSome = o.centered := by
  cases hc : o.centered <;> simp [RMSProp.createVars, hc]

/-- C7: For every sparse update whose index sequence contains a repeated
index, the per-row recurrence is applied once per occurrence, strictly in
sequence order — the update on `(g :: gs, i :: is)` equals the update on
`(gs, is)` of the state produced by the step on `(g, i)` — so the index
list `[2, 2]` produces a different result on row 2 than the
single-occurrence list `[2]`. -/
theorem C7_sparse_repeated_indices :
    (∀ (sqrt : ℚ → ℚ) (lr rho momentum eps : ℚ) (vs rs ms : List Tensor)
        (g : Tensor) (i : ℕ) (gs : List Tensor) (idx : List ℕ),
      sparse_apply_rms_prop sqrt lr rho momentum eps vs rs ms (g :: gs) (i :: idx) =
        sparse_apply_rms_prop sqrt lr rho momentum eps
          (sparseRmsStep sqrt lr rho momentum eps (vs, rs, ms) (g, i)).1
          (sparseRmsStep sqrt lr rho momentum eps (vs, rs, ms) (g, i)).2.1
          (sparseRmsStep sqrt lr rho momentum eps (vs, rs, ms) (g, i)).2.2 gs idx) ∧
    (sparse_apply_rms_prop id 1 (1/2) 0 0 [[0], [0], [1]] [[0], [0], [1]]
        [[0], [0], [0]] [[1], [1]] [2, 2]).1[2]? ≠
      (sparse_apply_rms_prop id 1 (1/2) 0 0 [[0], [0], [1]] [[0], [0], [1]]
        [[0], [0], [0]] [[1]] [2]).1[2]? := by
  constructor
  · intro sqrt lr rho momentum eps vs rs ms g i gs idx
    rfl
  · norm_num [sparse_apply_rms_prop, sparseRmsStep, applyRmsPropList, List.getD]

/-- C8: For every engine instance constructed with centered=false,
requesting the mg slot of any variable fails with SlotNotFound (the mg
slot is never created for such an engine), and no update entry point of an
uncentered engine ever references an mg slot: the dense and sparse updates
pass the mg component through untouched and compute the same variable and
slot values whatever it holds, and the resource-backed updates are
insensitive to the mg handle. -/
theorem C8_uncentered_mg_slot_not_found :
    (∀ (o : RMSProp) (cast : ℚ → ℚ) (t : ℕ) (v : Tensor), o.centered = false →
      getSlot (o.createVars cast t v) .mg = .error .SlotNotFound) ∧
    (∀ (o : RMSProp) (sqrt cast : ℚ → ℚ) (t : ℕ) (grad : Tensor)
        (v r m : Tensor) (mg₁ mg₂ : Option Tensor), o.centered = false →
      ∃ x y z, o.applyDense sqrt cast t grad ⟨v, r, m, mg₁⟩ = .ok ⟨x, y, z, mg₁⟩ ∧
        o.applyDense sqrt cast t grad ⟨v, r, m, mg₂⟩ = .ok ⟨x, y, z, mg₂⟩) ∧
    (∀ (o : RMSProp) (sqrt cast : ℚ → ℚ) (t : ℕ) (vals : List Tensor) (idx : List ℕ)
        (v r m : List Tensor) (mg₁ mg₂ : Option (List Tensor)), o.centered = false →
      ∃ x y z, o.applySparse sqrt cast t vals idx ⟨v, r, m, mg₁⟩ = .ok ⟨x, y, z, mg₁⟩ ∧
        o.applySparse sqrt cast t vals idx ⟨v, r, m, mg₂⟩ = .ok ⟨x, y, z, mg₂⟩) ∧
    (∀ (o : RMSProp) (sqrt cast : ℚ → ℚ) (t : ℕ) (grad : Tensor)
        (kv kr km : ℕ) (omg₁ omg₂ : Option ℕ) (σ : Store ℚ), o.centered = false →
      o.resourceApplyDense sqrt cast t grad ⟨kv, kr, km, omg₁⟩ σ =
        o.resourceApplyDense sqrt cast t grad ⟨kv, kr, km, omg₂⟩ σ) ∧
    (∀ (o : RMSProp) (sqrt cast : ℚ → ℚ) (t : ℕ) (vals : List Tensor) (idx : List ℕ)
        (kv kr km : ℕ) (omg₁ omg₂ : Option ℕ) (σ : Store Tensor), o.centered = false →
      o.resourceApplySparse sqrt cast t vals idx ⟨kv, kr, km, omg₁⟩ σ =
        o.resourceApplySparse sqrt cast t vals idx ⟨kv, kr, km, omg₂⟩ σ) := by
  refine ⟨?_, ?_, ?_, ?_, ?_⟩
  · intro o cast t v hcent
    simp [RMSProp.createVars, getSlot, hcent]
  · intro o sqrt cast t grad v r m mg₁ mg₂ hcent
    refine ⟨(applyRmsPropList sqrt (getHyper cast o.learning_rate t)
        (getHyper cast o.rho t) (getHyper cast o.momentum t) 0 v r m grad).v,
      (applyRmsPropList sqrt (getHyper cast o.learning_rate t)
        (getHyper cast o.rho t) (getHyper cast o.momentum t) 0 v r m grad).rms,
      (applyRmsPropList sqrt (getHyper cast o.learning_rate t)
        (getHyper cast o.rho t) (getHyper cast o.momentum t) 0 v r m grad).mom,
      ?_, ?_⟩ <;> (rw [RMSProp.applyDense, hcent]; rfl)
  · intro o sqrt cast t vals idx v r m mg₁ mg₂ hcent
    refine ⟨(sparse_apply_rms_prop sqrt (getHyper cast o.learning_rate t)
        (getHyper cast o.rho t) (getHyper cast o.momentum t) 0 v r m vals idx).1,
      (sparse_apply_rms_prop sqrt (getHyper cast o.learning_rate t)
        (getHyper cast o.rho t) (getHyper cast o.momentum t) 0 v r m vals idx).2.1,
      (sparse_apply_rms_prop sqrt (getHyper cast o.learning_rate t)
        (getHyper cast o.rho t) (getHyper cast o.momentum t) 0 v r m vals idx).2.2,
      ?_, ?_⟩ <;> (rw [RMSProp.applySparse, hcent]; rfl)
  · intro o sqrt cast t grad kv kr km omg₁ omg₂ σ hcent
    simp [RMSProp.resourceApplyDense, hcent]
  · intro o sqrt cast t vals idx kv kr km omg₁ omg₂ σ hcent
    simp [RMSProp.resourceApplySparse, hcent]

theorem C8_uncentered_mg_slot_not_found_witness :
    egUncentered.centered = false ∧
    getSlot (egUncentered.createVars id 0 [5]) .mg = .error .SlotNotFound ∧
    (∃ x y z,
      RMSProp.applyDense egUncentered id id 0 [1] ⟨[5], [6], [7], none⟩ =
        .ok ⟨x, y, z, none⟩ ∧
      RMSProp.applyDense egUncentered id id 0 [1] ⟨[5], [6], [7], some [9]⟩ =
        .ok ⟨x, y, z, some [9]⟩) ∧
    (∃ x y z,
      RMSProp.applySparse egUncentered id id 0 [[1]] [1]
          ⟨[[5], [9]], [[6], [9]], [[7], [9]], none⟩ = .ok ⟨x, y, z, none⟩ ∧
      RMSProp.applySparse egUncentered id id 0 [[1]] [1]
          ⟨[[5], [9]], [[6], [9]], [[7], [9]], some [[9], [9]]⟩ =
        .ok ⟨x, y, z, some [[9], [9]]⟩) ∧
    (RMSProp.resourceApplyDense egUncentered id id 0 [1] ⟨0, 1, 2, none⟩ egStoreD =
      RMSProp.resourceApplyDense egUncentered id id 0 [1] ⟨0, 1, 2, some 3⟩ egStoreD) ∧
    (RMSProp.resourceApplySparse egUncentered id id 0 [[1]] [1] ⟨0, 1, 2, none⟩ egStoreS =
      RMSProp.resourceApplySparse egUncentered id id 0 [[1]] [1] ⟨0, 1, 2, some 3⟩
        egStoreS) :=
  ⟨rfl,
   C8_uncentered_mg_slot_not_found.1 egUncentered id 0 [5] rfl,
   C8_uncentered_mg_slot_not_found.2.1 egUncentered id id 0 [1] [5] [6] [7]
     none (some [9]) rfl,
   C8_uncentered_mg_slot_not_found.2.2.1 egUncentered id id 0 [[1]] [1]
     [[5], [9]] [[6], [9]] [[7], [9]] none (some [[9], [9]]) rfl,
   C8_uncentered_mg_slot_not_found.2.2.2.1 egUncentered id id 0 [1] 0 1 2
     none (some 3) egStoreD rfl,
   C8_uncentered_mg_slot_not_found.2.2.2.2 egUncentered id id 0 [[1]] [1] 0 1 2
     none (some 3) egStoreS rfl⟩

/-- C9 counterexample: the claim says all four hyperparameters, epsilon
included, are resolved on every update call and passed to the kernel.  In
the code epsilon is never resolved at update time and the kernel receives
a literal 0 in its place: two engines whose epsilon hyperparameters are the
distinct constants 100 and 200 produce identical dense updates, although
the kernel invoked with resolved epsilon 100 differs from the kernel
invoked with resolved epsilon 200 on those very inputs. -/
theorem C9_counterexample_epsilon_not_resolved :
    RMSProp.applyDense ⟨.const 1, .const (1/2), .const 0, .const 100, false⟩
        id id 0 [1] ⟨[1], [1], [0], none⟩ =
      RMSProp.applyDense ⟨.const 1, .const (1/2), .const 0, .const 200, false⟩
        id id 0 [1] ⟨[1], [1], [0], none⟩ ∧
    applyRmsPropList id 1 (1/2) 0 (getHyper id (.const 100) 0) [1] [1] [0] [1] ≠
      applyRmsPropList id 1 (1/2) 0 (getHyper id (.const 200) 0) [1] [1] [0] [1] := by
  constructor
  · rfl
  · norm_num [applyRmsPropList, getHyper]

/-- C9 (amended): On every update call, the three hyperparameters
learning_rate, rho and momentum are each resolved afresh — a constant is
returned directly, a zero-argument computation is evaluated now with no
caching across calls — and the resolved value is cast to the updated
variable's element type before being passed to the kernel; epsilon is
resolved and cast only at slot-creation time, where it forms the initial
rms value, and every kernel invocation receives a literal 0 as its epsilon
argument (the update result is independent of the epsilon hyperparameter). -/
theorem C9_hyperparameters_resolved_fresh :
    (∀ (cast : ℚ → ℚ) (c : ℚ) (t : ℕ), getHyper cast (.const c) t = cast c) ∧
    (∀ (cast : ℚ → ℚ) (f : ℕ → ℚ) (t : ℕ), getHyper cast (.callable f) t = cast (f t)) ∧
    (∀ (o : RMSProp) (sqrt cast : ℚ → ℚ) (t : ℕ) (grad : Tensor) (s : VarState ℚ)
        (f : ℕ → ℚ),
      RMSProp.applyDense { o with learning_rate := .callable f } sqrt cast t grad s =
        RMSProp.applyDense { o with learning_rate := .const (f t) } sqrt cast t grad s ∧
      RMSProp.applyDense { o with rho := .callable f } sqrt cast t grad s =
        RMSProp.applyDense { o with rho := .const (f t) } sqrt cast t grad s ∧
      RMSProp.applyDense { o with momentum := .callable f } sqrt cast t grad s =
        RMSProp.applyDense { o with momentum := .const (f t) } sqrt cast t grad s) ∧
    (∀ (o : RMSProp) (sqrt cast : ℚ → ℚ) (t : ℕ) (vals : List Tensor) (idx : List ℕ)
        (s : VarState Tensor) (f : ℕ → ℚ),
      RMSProp.applySparse { o with learning_rate := .callable f } sqrt cast t vals idx s =
        RMSProp.applySparse { o with learning_rate := .const (f t) } sqrt cast t vals idx s ∧
      RMSProp.applySparse { o with rho := .callable f } sqrt cast t vals idx s =
        RMSProp.applySparse { o with rho := .const (f t) } sqrt cast t vals idx s ∧
      RMSProp.applySparse { o with momentum := .callable f } sqrt cast t vals idx s =
        RMSProp.applySparse { o with momentum := .const (f t) } sqrt cast t vals idx s) ∧
    (∀ (o : RMSProp) (cast : ℚ → ℚ) (t : ℕ) (v : Tensor) (f : ℕ → ℚ),
      RMSProp.createVars { o with epsilon := .callable f } cast t v =
        RMSProp.createVars { o with epsilon := .const (f t) } cast t v) ∧
    (∀ (o : RMSProp) (e₁ e₂ : HyperValue) (sqrt cast : ℚ → ℚ) (t : ℕ)
        (grad : Tensor) (s : VarState ℚ),
      RMSProp.applyDense { o with epsilon := e₁ } sqrt cast t grad s =
        RMSProp.applyDense { o with epsilon := e₂ } sqrt cast t grad s) :=
  ⟨fun _ _ _ => rfl, fun _ _ _ => rfl,
   fun _ _ _ _ _ _ _ => ⟨rfl, rfl, rfl⟩,
   fun _ _ _ _ _ _ _ _ => ⟨rfl, rfl, rfl⟩,
   fun _ _ _ _ _ => rfl,
   fun _ _ _ _ _ _ _ _ => rfl⟩

/-- C10: Constructing the engine with momentum=None (the constructor's
default) is equivalent to constructing it with momentum=0.0: the momentum
hyperparameter is registered as the constant 0.0, every resolution of it
yields the cast of 0, and every update computes the same result as under
an explicit constant-0 momentum. -/
theorem C10_momentum_none_is_zero :
    (∀ (lr rho : HyperValue) (eps : HyperValue) (c : Bool),
      RMSProp.init lr rho none eps c = RMSProp.init lr rho (some (.const 0)) eps c) ∧
    (∀ (lr rho : HyperValue) (eps : HyperValue) (c : Bool),
      (RMSProp.init lr rho none eps c).momentum = .const 0) ∧
    (∀ (lr rho : HyperValue) (eps : HyperValue) (c : Bool) (cast : ℚ → ℚ) (t : ℕ),
      getHyper cast (RMSProp.init lr rho none eps c).momentum t = cast 0) ∧
    (∀ (lr rho : HyperValue) (eps : HyperValue) (c : Bool) (sqrt cast : ℚ → ℚ)
        (t : ℕ) (grad : Tensor) (s : VarState ℚ),
      RMSProp.applyDense (RMSProp.init lr rho none eps c) sqrt cast t grad s =
        RMSProp.applyDense (RMSProp.init lr rho (some (.const 0)) eps c) sqrt cast t grad s) ∧
    (∀ (lr rho : HyperValue) (eps : HyperValue) (c : Bool) (sqrt cast : ℚ → ℚ)
        (t : ℕ) (vals : List Tensor) (idx : List ℕ) (s : VarState Tensor),
      RMSProp.applySparse (RMSProp.init lr rho none eps c) sqrt cast t vals idx s =
        RMSProp.applySparse (RMSProp.init lr rho (some (.const 0)) eps c) sqrt cast t
          vals idx s) :=
  ⟨fun _ _ _ _ => rfl, fun _ _ _ _ => rfl, fun _ _ _ _ _ _ => rfl,
   fun _ _ _ _ _ _ _ _ _ => rfl, fun _ _ _ _ _ _ _ _ _ _ => rfl⟩

end RMSpropSpec
